import Mathlib

/-! Sidebar hamburger menu (`website/static/js/sidebar.js`)

A shallow embedding of the script: the DOM objects it touches, the two closure
functions `toggleSidebar` and `closeSidebar`, the listeners it registers, the
debounce timer of the resize listener, and a small event loop that dispatches
browser events to the registered listeners.

JavaScript exceptions do not roll back earlier writes, so a function body ends
in a `Completion` that carries the world reached so far.  An exception that
escapes a listener is reported by the browser and ends that listener only.
-/

namespace Sidebar

/-! ## Data model -/

/-- A DOM element, reduced to what the script reads or writes: the class list,
the `aria-label` attribute, `innerHTML` and `style.transition`. -/
structure Element where
  classList : List String
  ariaLabel : Option String
  innerHTML : String
  transition : String
deriving DecidableEq, Repr

namespace Element

/-- The method `el.classList.contains(c)`. -/
def contains (e : Element) (c : String) : Bool :=
  decide (c ∈ e.classList)

/-- The method `el.classList.remove(c)`. -/
def remove (e : Element) (c : String) : Element :=
  { e with classList := e.classList.filter (fun x => decide (x ≠ c)) }

/-- The method `el.classList.add(c)`. -/
def add (e : Element) (c : String) : Element :=
  if e.contains c then e else { e with classList := e.classList ++ [c] }

/-- The method `el.classList.toggle(c)`: removes the token when present, adds it otherwise. -/
def toggle (e : Element) (c : String) : Element :=
  if e.contains c then e.remove c else e.add c

end Element

/-- The objects listeners are registered on.  Menu entries are numbered by their
position among the `.menu-item` elements of the host page. -/
inductive Target where
  | hamburgerBtn
  | overlay
  | menuItem (i : Nat)
  | document
  | window
deriving DecidableEq, Repr

/-- The functions the script passes to `addEventListener`, and the callback it
passes to `setTimeout`. -/
inductive Handler where
  | toggleSidebar
  | closeSidebar
  | menuItemClick
  | keydown
  | resize
  | load
  | scrollToTop
deriving DecidableEq, Repr

/-- One `target.addEventListener(event, handler)` registration. -/
structure Listener where
  target : Target
  event : String
  handler : Handler
deriving DecidableEq, Repr

/-- A pending `setTimeout`: its id and the time (ms) at which it is due. -/
structure Timer where
  id : Nat
  due : Nat
deriving DecidableEq, Repr

/-- The argument of one `window.scrollTo` call. -/
structure ScrollRequest where
  top : Nat
  behavior : String
deriving DecidableEq, Repr

/-- Everything the script can observe or change.  `sidebar` is the value of
`document.getElementById("sidebar")`, `none` standing for `null`; `resizeTimer`
is the closure variable of that name, `none` standing for `undefined`.
`scrolls`, `evaluations` and `errors` are traces: the `window.scrollTo` calls
made, the timers whose callback has run, and the exceptions reported. -/
structure World where
  hamburgerBtn : Element
  overlay : Element
  sidebar : Option Element
  bodyOverflow : String
  innerWidth : Nat
  listeners : List Listener
  resizeTimer : Option Nat
  timers : List Timer
  nextTimerId : Nat
  now : Nat
  scrolls : List ScrollRequest
  evaluations : List Timer
  errors : List String
deriving DecidableEq, Repr

/-- How a function body ends: normally, or by an exception thrown part-way (the
writes made before the throw stay). -/
inductive Completion where
  | normal (w : World)
  | threw (error : String) (w : World)
deriving DecidableEq, Repr

/-- The exception raised by a property access on the `null` panel. -/
def typeErrorNull : String := "TypeError: sidebar is null"

/-! ## The closure functions (lines 27-46) -/

/-- The function `toggleSidebar` (lines 27-38). -/
def toggleSidebar (w : World) : Completion :=
  -- hamburgerBtn.classList.toggle("active")
  let w1 := { w with hamburgerBtn := w.hamburgerBtn.toggle "active" }
  -- sidebar.classList.toggle("active")
  match w1.sidebar with
  | none => .threw typeErrorNull w1
  | some sb =>
    let w2 := { w1 with sidebar := some (sb.toggle "active") }
    -- overlay.classList.toggle("active")
    let w3 := { w2 with overlay := w2.overlay.toggle "active" }
    -- if (sidebar.classList.contains("active")) ... else ...
    if (sb.toggle "active").contains "active" then
      .normal { w3 with bodyOverflow := "hidden" }
    else
      .normal { w3 with bodyOverflow := "" }

/-- The function `closeSidebar` (lines 41-46). -/
def closeSidebar (w : World) : Completion :=
  -- hamburgerBtn.classList.remove("active")
  let w1 := { w with hamburgerBtn := w.hamburgerBtn.remove "active" }
  -- sidebar.classList.remove("active")
  match w1.sidebar with
  | none => .threw typeErrorNull w1
  | some sb =>
    let w2 := { w1 with sidebar := some (sb.remove "active") }
    -- overlay.classList.remove("active")
    let w3 := { w2 with overlay := w2.overlay.remove "active" }
    -- document.body.style.overflow = ""
    .normal { w3 with bodyOverflow := "" }

/-! ## The listeners (lines 55-60, 64-68, 72-80, 83-85, 90-95) -/

/-- The click listener bound to each menu entry inside the panel (lines 55-60). -/
def menuItemClick (w : World) : Completion :=
  if w.innerWidth ≤ 768 then closeSidebar w else .normal w

/-- The `keydown` listener of the document (lines 64-68); `key` is `e.key`.
`&&` evaluates its right operand only when the left one holds. -/
def keydownHandler (key : String) (w : World) : Completion :=
  if key = "Escape" then
    match w.sidebar with
    | none => .threw typeErrorNull w
    | some sb => if sb.contains "active" then closeSidebar w else .normal w
  else .normal w

/-- The callback given to `setTimeout` (lines 74-79): the resize evaluation. -/
def resizeCallback (w : World) : Completion :=
  if 768 < w.innerWidth then
    match w.sidebar with
    | none => .threw typeErrorNull w
    | some sb => if sb.contains "active" then closeSidebar w else .normal w
  else .normal w

/-- The call `clearTimeout(id)`: cancels the timer with that id, if there is one. -/
def clearTimeout (id : Option Nat) (w : World) : World :=
  match id with
  | none => w
  | some i => { w with timers := w.timers.filter (fun t => decide (t.id ≠ i)) }

/-- The call `setTimeout(callback, delay)`: queues a timer due `delay` ms from now and
returns its fresh id.  The script has one `setTimeout` call site, so the
callback of every timer is `resizeCallback`. -/
def setTimeout (delay : Nat) (w : World) : Nat × World :=
  (w.nextTimerId,
    { w with timers := w.timers ++ [⟨w.nextTimerId, w.now + delay⟩],
             nextTimerId := w.nextTimerId + 1 })

/-- The `resize` listener of the window (lines 72-80). -/
def resizeHandler (w : World) : Completion :=
  -- clearTimeout(resizeTimer)
  let w1 := clearTimeout w.resizeTimer w
  -- resizeTimer = setTimeout(function() ..., 250)
  let r := setTimeout 250 w1
  .normal { r.2 with resizeTimer := some r.1 }

/-- The `load` listener of the window (lines 83-85). -/
def loadHandler (w : World) : Completion :=
  match w.sidebar with
  | none => .threw typeErrorNull w
  | some sb =>
    .normal { w with sidebar := some { sb with
      transition := "transform var(--transition-normal), width var(--transition-normal)" } }

/-- The click listener of lines 90-95: `window.scrollTo` with top 0, smooth. -/
def scrollToTop (w : World) : Completion :=
  .normal { w with scrolls := w.scrolls ++ [⟨0, "smooth"⟩] }

/-! ## Event loop -/

/-- Runs a registered function; `key` is the `key` property of the event. -/
def callHandler (h : Handler) (key : String) (w : World) : Completion :=
  match h with
  | .toggleSidebar => toggleSidebar w
  | .closeSidebar => closeSidebar w
  | .menuItemClick => menuItemClick w
  | .keydown => keydownHandler key w
  | .resize => resizeHandler w
  | .load => loadHandler w
  | .scrollToTop => scrollToTop w

/-- An exception leaving a listener or a timer callback is reported, and the
event loop goes on with the world the function left behind. -/
def report (c : Completion) : World :=
  match c with
  | .normal w => w
  | .threw e w => { w with errors := w.errors ++ [e] }

/-- The listeners registered on one element for the event type run in
registration order. -/
def dispatch (target : Target) (event : String) (key : String) (w : World) : World :=
  (w.listeners.filter (fun l => decide (l.target = target ∧ l.event = event))).foldl
    (fun w l => report (callHandler l.handler key w)) w

/-- Runs the callbacks of the timers that are due, oldest first, and records
each run in `evaluations`. -/
def fireTimers (w : World) : World :=
  (w.timers.filter (fun t => decide (t.due ≤ w.now))).foldl
    (fun w t => report (resizeCallback { w with evaluations := w.evaluations ++ [t] }))
    { w with timers := w.timers.filter (fun t => decide (¬ t.due ≤ w.now)) }

/-- What the browser can deliver to the page after initialisation.  A click
names the innermost element that can carry a listener and the `.menu-item`
elements that enclose it, innermost first: the listeners of the script are
bubbling listeners and nothing stops the propagation. -/
inductive Event where
  | click (target : Target) (ancestors : List Nat)
  | keydown (key : String)
  | resize (innerWidth : Nat)
  | load
  | elapse (ms : Nat)
deriving DecidableEq, Repr

/-- A click bubbles: the listeners of the target run first, then those of each
enclosing menu entry, from the innermost outwards. -/
def bubble (target : Target) (ancestors : List Nat) (w : World) : World :=
  (target :: ancestors.map .menuItem).foldl (fun w t => dispatch t "click" "" w) w

/-- One turn of the event loop.  `click t anc`: a click on `t` inside the menu
entries `anc`; `resize iw`: the viewport now has width `iw` and the window gets
a `resize` event; `elapse ms`: `ms` milliseconds pass and the timers that
became due fire. -/
def step (e : Event) (w : World) : World :=
  match e with
  | .click t anc => bubble t anc w
  | .keydown k => dispatch .document "keydown" k w
  | .resize iw => dispatch .window "resize" "" { w with innerWidth := iw }
  | .load => dispatch .window "load" "" w
  | .elapse ms => fireTimers { w with now := w.now + ms }

/-- A finite sequence of events, delivered in order. -/
def run (es : List Event) (w : World) : World :=
  es.foldl (fun w e => step e w) w

/-! ## Host page and initialisation (lines 3-25, 48-53, 89-96) -/

/-- A `.menu-item` element of the host page: whether it lies inside the panel,
and whether it is already in the document when the script is run. -/
structure MenuItem where
  inSidebar : Bool
  atScriptRun : Bool
deriving DecidableEq, Repr

/-- The host page (its markup is not part of the script): the element with id
`sidebar` if there is one, the inline `overflow` of the body, the width of the
viewport, and the `.menu-item` elements in document order. -/
structure HostPage where
  sidebar : Option Element
  bodyOverflow : String
  innerWidth : Nat
  menuItems : List MenuItem
deriving DecidableEq, Repr

/-- The positions of the menu entries that satisfy `p`. -/
def menuItemIds (p : MenuItem → Bool) (items : List MenuItem) : List Nat :=
  (List.range items.length).filter
    (fun i => match items[i]? with
      | some m => p m
      | none => false)

/-- Lines 89-96, executed when the script is run:
`document.querySelectorAll(".menu-item").forEach(...)`. -/
def scrollListeners (host : HostPage) : List Listener :=
  (menuItemIds (fun m => m.atScriptRun) host.menuItems).map
    (fun i => ⟨.menuItem i, "click", .scrollToTop⟩)

/-- Lines 53-61, executed in the `DOMContentLoaded` listener:
`sidebar.querySelectorAll(".menu-item").forEach(...)`. -/
def closeListeners (host : HostPage) : List Listener :=
  (menuItemIds (fun m => m.inSidebar) host.menuItems).map
    (fun i => ⟨.menuItem i, "click", .menuItemClick⟩)

/-- The script run followed by the `DOMContentLoaded` listener (lines 3-86).
With a `null` panel the listener throws at line 53, after lines 49-50.  The
`mainContent` of line 24 is never used and has no counterpart here. -/
def initialise (host : HostPage) : World :=
  -- lines 5-12 and 15-16
  let hamburgerBtn : Element :=
    ⟨["hamburger-btn"], some "Toggle menu",
      "\n        <span></span>\n        <span></span>\n        <span></span>\n    ", ""⟩
  let overlay : Element := ⟨["sidebar-overlay"], none, "", ""⟩
  -- lines 19-23 and 49-50 (after the listeners of lines 89-96)
  let w0 : World :=
    { hamburgerBtn := hamburgerBtn
      overlay := overlay
      sidebar := host.sidebar
      bodyOverflow := host.bodyOverflow
      innerWidth := host.innerWidth
      listeners := scrollListeners host ++
        [⟨.hamburgerBtn, "click", .toggleSidebar⟩, ⟨.overlay, "click", .closeSidebar⟩]
      resizeTimer := none
      timers := []
      nextTimerId := 1
      now := 0
      scrolls := []
      evaluations := []
      errors := [] }
  -- line 53: sidebar.querySelectorAll(".menu-item")
  match host.sidebar with
  | none => report (.threw typeErrorNull w0)
  | some _ =>
    -- lines 54-61, 64, 72, 83
    { w0 with listeners := w0.listeners ++ closeListeners host ++
        [⟨.document, "keydown", .keydown⟩, ⟨.window, "resize", .resize⟩,
         ⟨.window, "load", .load⟩] }

/-! ## Observations -/

/-- The value of `isOpen`: the panel carries the "active" indicator. -/
def isOpen (w : World) : Bool :=
  match w.sidebar with
  | some sb => sb.contains "active"
  | none => false

/-- The closed state: no indicator is active and the scroll-lock is clear. -/
def Closed (w : World) : Prop :=
  (∃ sb, w.sidebar = some sb ∧ sb.contains "active" = false) ∧
  w.hamburgerBtn.contains "active" = false ∧
  w.overlay.contains "active" = false ∧
  w.bodyOverflow = ""

/-- The three indicators agree, and the scroll-lock is set exactly when they
are active. -/
def Consistent (w : World) : Prop :=
  ∃ sb, w.sidebar = some sb ∧
    w.hamburgerBtn.contains "active" = sb.contains "active" ∧
    w.overlay.contains "active" = sb.contains "active" ∧
    (w.bodyOverflow = "hidden" ↔ sb.contains "active" = true)

/-- Calls `f` `n` times in a row; an exception ends the sequence. -/
def callN (f : World → Completion) : Nat → World → Completion
  | 0, w => .normal w
  | n + 1, w =>
    match f w with
    | .normal w1 => callN f n w1
    | .threw e w1 => .threw e w1

/-- A burst of resize events after a first one: each pair is the time since
the previous resize event and the new width of the viewport. -/
def burst : List (Nat × Nat) → List Event
  | [] => []
  | (gap, width) :: rest => .elapse gap :: .resize width :: burst rest

/-- A host page with a closed panel and two menu entries inside it. -/
def demoHost : HostPage :=
  { sidebar := some ⟨["sidebar"], none, "", ""⟩
    bodyOverflow := ""
    innerWidth := 500
    menuItems := [⟨true, true⟩, ⟨true, true⟩] }

/-- The state after initialisation on `demoHost`: closed, viewport width 500. -/
def closedWorld : World := initialise demoHost

/-- The state after one click on the toggle control: open, viewport width 500. -/
def openWorld : World := run [.click .hamburgerBtn []] closedWorld

/-- A state whose indicators disagree: only the panel carries "active". -/
def mixedWorld : World :=
  { closedWorld with sidebar := some ⟨["sidebar", "active"], none, "", ""⟩ }

/-- A host page whose panel markup already carries "active". -/
def activeHost : HostPage :=
  { sidebar := some ⟨["sidebar", "active"], none, "", ""⟩
    bodyOverflow := ""
    innerWidth := 500
    menuItems := [] }

/-- A host page without a panel and without menu entries. -/
def barePage : HostPage :=
  { sidebar := none, bodyOverflow := "", innerWidth := 1024, menuItems := [] }

/-- A host page without a panel whose document has one menu entry. -/
def noPanelHost : HostPage :=
  { sidebar := none, bodyOverflow := "", innerWidth := 500, menuItems := [⟨false, true⟩] }

/-- The listeners in place when initialisation stopped at the `null` panel:
those of lines 89-96 and of lines 49-50. -/
def unboundListeners (host : HostPage) : List Listener :=
  scrollListeners host ++
    [⟨.hamburgerBtn, "click", .toggleSidebar⟩, ⟨.overlay, "click", .closeSidebar⟩]

/-- The page has no panel, no timer is pending, and the listeners are those
bound before initialisation stopped. -/
def Unbound (host : HostPage) (w : World) : Prop :=
  w.sidebar = none ∧ w.timers = [] ∧ w.listeners = unboundListeners host

/-- The listeners in place after a complete initialisation. -/
def boundListeners (host : HostPage) : List Listener :=
  unboundListeners host ++ closeListeners host ++
    [⟨.document, "keydown", .keydown⟩, ⟨.window, "resize", .resize⟩,
     ⟨.window, "load", .load⟩]

/-- A host page with a closed panel at width 500 whose script is run before
the panel is parsed: entry 0 lies inside the panel and is not yet in the
document when the script is run; entry 1 lies outside the panel and is. -/
def splitHost : HostPage :=
  { sidebar := some ⟨["sidebar"], none, "", ""⟩
    bodyOverflow := ""
    innerWidth := 500
    menuItems := [⟨true, false⟩, ⟨false, true⟩] }

/-- What a click does at menu entry `j` of a fully initialised page: the
scroll-to-top listener runs if it was attached to `j`, then the close-on-mobile
listener if it was attached to `j`. -/
def clickAt (host : HostPage) (w : World) (j : Nat) : World :=
  (if j ∈ menuItemIds (fun m => m.inSidebar) host.menuItems
    then fun w1 => report (menuItemClick w1) else fun w1 => w1)
  (if j ∈ menuItemIds (fun m => m.atScriptRun) host.menuItems
    then report (scrollToTop w) else w)

/-- How many of the entries `js` carry the scroll-to-top listener. -/
def scrollCount (host : HostPage) (js : List Nat) : Nat :=
  js.countP (fun j => decide (j ∈ menuItemIds (fun m => m.atScriptRun) host.menuItems))

/-- The window has exactly one `resize` listener, the one of lines 72-80. -/
def ResizeBound (w : World) : Prop :=
  w.listeners.filter (fun l => decide (l.target = .window ∧ l.event = "resize"))
    = [⟨.window, "resize", .resize⟩]

/-- The viewport width after a burst whose first event set it to `first`. -/
def lastWidth : Nat → List (Nat × Nat) → Nat
  | first, [] => first
  | _, (_, width) :: rest => lastWidth width rest

/-- The time a burst takes from its first to its last event. -/
def burstLength : List (Nat × Nat) → Nat
  | [] => 0
  | (gap, _) :: rest => gap + burstLength rest

/-- The world `w` right after a resize event at time `t` to width `iw` whose
evaluation is timer `k`: that timer is the only one pending. -/
def pendingWorld (w : World) (iw t k : Nat) : World :=
  { w with innerWidth := iw, now := t, resizeTimer := some k,
           timers := [⟨k, t + 250⟩], nextTimerId := k + 1 }

/-- The world `w` at time `now`, width `iw`, with timer `k` pending for `due`. -/
def waitingWorld (w : World) (iw now due k : Nat) : World :=
  { w with innerWidth := iw, now := now, resizeTimer := some k,
           timers := [⟨k, due⟩], nextTimerId := k + 1 }

/-- The world in which the one evaluation of a burst runs. -/
def evaluationWorld (w : World) (iw t k quiet : Nat) : World :=
  { w with innerWidth := iw, now := t + quiet, resizeTimer := some k,
           timers := [], nextTimerId := k + 1,
           evaluations := w.evaluations ++ [⟨k, t + 250⟩] }

/-! ## Class lists -/

theorem Element.contains_remove (e : Element) (c : String) :
    (e.remove c).contains c = false := by
  simp [Element.contains, Element.remove]

theorem Element.contains_toggle (e : Element) (c : String) :
    (e.toggle c).contains c = !e.contains c := by
  by_cases h : c ∈ e.classList <;>
    simp [Element.toggle, Element.add, Element.contains, Element.remove, h]

theorem Element.remove_of_not_contains (e : Element) (c : String)
    (h : e.contains c = false) : e.remove c = e := by
  have hc : c ∉ e.classList := by simpa [Element.contains] using h
  have hf : e.classList.filter (fun x => decide (x ≠ c)) = e.classList := by
    apply List.filter_eq_self.mpr
    intro a ha
    have : a ≠ c := fun hac => hc (hac ▸ ha)
    simpa using this
  cases e
  simp only [Element.remove] at hf ⊢
  rw [hf]

theorem Element.remove_remove (e : Element) (c : String) :
    (e.remove c).remove c = e.remove c :=
  Element.remove_of_not_contains _ _ (Element.contains_remove e c)

/-! ## The closure functions -/

theorem closeSidebar_some (w : World) (sb : Element) (h : w.sidebar = some sb) :
    closeSidebar w = .normal
      { w with hamburgerBtn := w.hamburgerBtn.remove "active"
               sidebar := some (sb.remove "active")
               overlay := w.overlay.remove "active"
               bodyOverflow := "" } := by
  simp [closeSidebar, h]

theorem closeSidebar_closed (w : World) (sb : Element) (h : w.sidebar = some sb) :
    ∃ w1, closeSidebar w = .normal w1 ∧ Closed w1 ∧ isOpen w1 = false := by
  refine ⟨_, closeSidebar_some w sb h, ⟨⟨sb.remove "active", rfl, ?_⟩, ?_, ?_, rfl⟩, ?_⟩
  · exact Element.contains_remove _ _
  · exact Element.contains_remove _ _
  · exact Element.contains_remove _ _
  · simp [isOpen, Element.contains_remove]

theorem toggleSidebar_some (w : World) (sb : Element) (h : w.sidebar = some sb) :
    toggleSidebar w = .normal
      { w with hamburgerBtn := w.hamburgerBtn.toggle "active"
               sidebar := some (sb.toggle "active")
               overlay := w.overlay.toggle "active"
               bodyOverflow := if sb.contains "active" then "" else "hidden" } := by
  by_cases hc : sb.contains "active" = true <;>
    simp [toggleSidebar, h, Element.contains_toggle, hc]

theorem callN_toggle (n : Nat) :
    ∀ (w : World) (sb : Element), w.sidebar = some sb →
      ∃ w1, callN toggleSidebar n w = .normal w1 ∧
        isOpen w1 = (if n % 2 = 1 then !isOpen w else isOpen w) := by
  induction n with
  | zero => intro w sb _; exact ⟨w, rfl, by simp⟩
  | succ n ih =>
    intro w sb h
    obtain ⟨w1, h1, h2⟩ := ih _ (sb.toggle "active")
      (show (World.mk (w.hamburgerBtn.toggle "active") (w.overlay.toggle "active")
        (some (sb.toggle "active")) (if sb.contains "active" then "" else "hidden")
        w.innerWidth w.listeners w.resizeTimer w.timers w.nextTimerId w.now w.scrolls
        w.evaluations w.errors).sidebar = some (sb.toggle "active") from rfl)
    refine ⟨w1, ?_, ?_⟩
    · simp only [callN, toggleSidebar_some w sb h]
      exact h1
    · rw [h2]
      simp only [isOpen, h, Element.contains_toggle]
      rcases Nat.mod_two_eq_zero_or_one n with h0 | h0 <;>
        have h3 : (n + 1) % 2 = (n % 2 + 1) % 2 := by omega
      · simp [h3, h0]
      · simp [h3, h0]

/-! ## Claims about the closure functions and the listeners -/

/-- C4: from every prior state in which the panel exists, also one whose
indicators or scroll-lock disagree, `closeSidebar` completes normally in the
state where none of the toggle control, the panel and the overlay carries
"active" and the body overflow is the empty string; nothing else changes. -/
theorem closeSidebar_forces_closed (w : World) (sb : Element) (h : w.sidebar = some sb) :
    ∃ w1, closeSidebar w = .normal w1 ∧ Closed w1 ∧ isOpen w1 = false ∧
      w1 = { w with hamburgerBtn := w.hamburgerBtn.remove "active"
                    sidebar := some (sb.remove "active")
                    overlay := w.overlay.remove "active"
                    bodyOverflow := "" } := by
  refine ⟨_, closeSidebar_some w sb h, ⟨⟨sb.remove "active", rfl, ?_⟩, ?_, ?_, rfl⟩, ?_, rfl⟩
  · exact Element.contains_remove _ _
  · exact Element.contains_remove _ _
  · exact Element.contains_remove _ _
  · simp [isOpen, Element.contains_remove]

/-- C10: `closeSidebar` is idempotent: a second call returns the state the
first call produced, and a call in the closed state returns that very state. -/
theorem closeSidebar_idempotent (w : World) (sb : Element) (h : w.sidebar = some sb) :
    ∃ w1, closeSidebar w = .normal w1 ∧ closeSidebar w1 = .normal w1 ∧
      (Closed w → w1 = w) := by
  refine ⟨_, closeSidebar_some w sb h, ?_, ?_⟩
  · rw [closeSidebar_some _ (sb.remove "active") rfl]
    simp [Element.remove_remove]
  · rintro ⟨⟨sb1, hs1, hc1⟩, hb, ho, hv⟩
    rw [h] at hs1
    cases hs1
    cases w
    simp only at h hb ho hv
    simp [Element.remove_of_not_contains _ _ hb, Element.remove_of_not_contains _ _ ho,
      Element.remove_of_not_contains _ _ hc1, h, hv]

/-- C4, at a state whose indicators disagree. -/
theorem closeSidebar_forces_closed_witness :
    ∃ w1, closeSidebar mixedWorld = .normal w1 ∧ Closed w1 ∧ isOpen w1 = false ∧
      w1 = { mixedWorld with hamburgerBtn := mixedWorld.hamburgerBtn.remove "active"
                             sidebar := some
                               (Element.remove ⟨["sidebar", "active"], none, "", ""⟩ "active")
                             overlay := mixedWorld.overlay.remove "active"
                             bodyOverflow := "" } :=
  closeSidebar_forces_closed mixedWorld ⟨["sidebar", "active"], none, "", ""⟩ rfl

/-- C10, at the open state. -/
theorem closeSidebar_idempotent_witness :
    ∃ w1, closeSidebar openWorld = .normal w1 ∧ closeSidebar w1 = .normal w1 ∧
      (Closed openWorld → w1 = openWorld) :=
  closeSidebar_idempotent openWorld ⟨["sidebar", "active"], none, "", ""⟩ (by decide)

/-- C3: after `n` consecutive calls of `toggleSidebar` from the closed state,
the calls have all completed normally and `isOpen` holds iff `n` is odd. -/
theorem toggleSidebar_parity (n : Nat) (w : World) (h : Closed w) :
    ∃ w1, callN toggleSidebar n w = .normal w1 ∧ (isOpen w1 = true ↔ n % 2 = 1) := by
  obtain ⟨⟨sb, hs, hc⟩, -⟩ := h
  obtain ⟨w1, h1, h2⟩ := callN_toggle n w sb hs
  refine ⟨w1, h1, ?_⟩
  rw [h2]
  by_cases hn : n % 2 = 1 <;> simp [isOpen, hs, hc, hn]

/-- C3, at three calls from the state initialisation leaves on `demoHost`. -/
theorem toggleSidebar_parity_witness :
    ∃ w1, callN toggleSidebar 3 closedWorld = .normal w1 ∧ (isOpen w1 = true ↔ 3 % 2 = 1) :=
  toggleSidebar_parity 3 closedWorld (by
    refine ⟨⟨⟨["sidebar"], none, "", ""⟩, rfl, by decide⟩, by decide, by decide, by decide⟩)

/-- C5: the click listener of a menu entry inside the panel does what
`closeSidebar` does when the viewport width is at most 768 (768 included) and
leaves the state unchanged when it is larger; so an open sidebar stays open at
width 1200 and becomes closed, with the scroll-lock cleared, at width 500. -/
theorem menuItemClick_spec (w : World) :
    (w.innerWidth ≤ 768 → menuItemClick w = closeSidebar w) ∧
    (768 < w.innerWidth → menuItemClick w = .normal w) ∧
    menuItemClick { w with innerWidth := 768 } = closeSidebar { w with innerWidth := 768 } ∧
    (isOpen w = true → w.innerWidth = 1200 → menuItemClick w = .normal w) ∧
    (isOpen w = true → w.innerWidth = 500 →
      ∃ w1, menuItemClick w = .normal w1 ∧ isOpen w1 = false ∧ Closed w1) := by
  refine ⟨?_, ?_, ?_, ?_, ?_⟩
  · intro h
    simp [menuItemClick, h]
  · intro h
    have : ¬ w.innerWidth ≤ 768 := by omega
    simp [menuItemClick, this]
  · simp [menuItemClick]
  · intro _ h
    simp [menuItemClick, h]
  · intro ho h
    cases hs : w.sidebar with
    | none => simp [isOpen, hs] at ho
    | some sb =>
      obtain ⟨w1, h1, h2, h3⟩ := closeSidebar_closed w sb hs
      refine ⟨w1, ?_, h3, h2⟩
      simp [menuItemClick, h, h1]

/-- C7: the resize evaluation does what `closeSidebar` does when the viewport
is wider than 768 and the panel is active, and leaves the state unchanged
otherwise; so it never makes an inactive panel active. -/
theorem resizeCallback_spec (w : World) (sb : Element) (h : w.sidebar = some sb) :
    (768 < w.innerWidth ∧ sb.contains "active" = true → resizeCallback w = closeSidebar w) ∧
    (¬ (768 < w.innerWidth ∧ sb.contains "active" = true) → resizeCallback w = .normal w) ∧
    (isOpen w = false → ∃ w1, resizeCallback w = .normal w1 ∧ isOpen w1 = false) := by
  refine ⟨?_, ?_, ?_⟩
  · rintro ⟨hw, hc⟩
    simp [resizeCallback, hw, h, hc]
  · intro hn
    by_cases hw : 768 < w.innerWidth
    · have hc : sb.contains "active" = false := by
        cases hb : sb.contains "active" with
        | false => rfl
        | true => exact absurd ⟨hw, hb⟩ hn
      simp [resizeCallback, hw, h, hc]
    · simp [resizeCallback, hw]
  · intro ho
    have hc : sb.contains "active" = false := by simpa [isOpen, h] using ho
    refine ⟨w, ?_, ho⟩
    by_cases hw : 768 < w.innerWidth <;> simp [resizeCallback, hw, h, hc]

/-- C7, at the open state widened to 1200. -/
theorem resizeCallback_spec_witness :
    resizeCallback { openWorld with innerWidth := 1200 }
      = closeSidebar { openWorld with innerWidth := 1200 } :=
  (resizeCallback_spec { openWorld with innerWidth := 1200 }
    ⟨["sidebar", "active"], none, "", ""⟩ (by decide)).1 ⟨by decide, by decide⟩

/-- C8: the keydown listener does what `closeSidebar` does when the key is
exactly "Escape" and the sidebar is open, and leaves the state unchanged for
every other key and whenever the sidebar is not open. -/
theorem keydownHandler_spec (key : String) (w : World) (sb : Element)
    (h : w.sidebar = some sb) :
    (key = "Escape" ∧ isOpen w = true → keydownHandler key w = closeSidebar w) ∧
    (key ≠ "Escape" → keydownHandler key w = .normal w) ∧
    (isOpen w = false → keydownHandler key w = .normal w) ∧
    keydownHandler "a" w = .normal w := by
  have hopen : isOpen w = sb.contains "active" := by simp [isOpen, h]
  refine ⟨?_, ?_, ?_, ?_⟩
  · rintro ⟨hk, ho⟩
    rw [hopen] at ho
    simp [keydownHandler, hk, h, ho]
  · intro hk
    simp [keydownHandler, hk]
  · intro ho
    rw [hopen] at ho
    by_cases hk : key = "Escape" <;> simp [keydownHandler, hk, h, ho]
  · simp [keydownHandler]

/-- C8, at the open state with the keys "Escape" and "a". -/
theorem keydownHandler_spec_witness :
    keydownHandler "Escape" openWorld = closeSidebar openWorld ∧
    keydownHandler "a" openWorld = .normal openWorld :=
  ⟨(keydownHandler_spec "Escape" openWorld ⟨["sidebar", "active"], none, "", ""⟩
      (by decide)).1 ⟨rfl, by decide⟩,
   (keydownHandler_spec "Escape" openWorld ⟨["sidebar", "active"], none, "", ""⟩
      (by decide)).2.2.2⟩

/-! ## The invariant -/

theorem consistent_toggleSidebar (w : World) (h : Consistent w) :
    Consistent (report (toggleSidebar w)) := by
  obtain ⟨sb, hs, hb, ho, hv⟩ := h
  rw [toggleSidebar_some w sb hs]
  refine ⟨sb.toggle "active", rfl, ?_, ?_, ?_⟩
  · simp [report, Element.contains_toggle, hb]
  · simp [report, Element.contains_toggle, ho]
  · cases hc : sb.contains "active" <;> simp [report, Element.contains_toggle, hc]

theorem consistent_closeSidebar (w : World) (h : Consistent w) :
    Consistent (report (closeSidebar w)) := by
  obtain ⟨sb, hs, -⟩ := h
  rw [closeSidebar_some w sb hs]
  refine ⟨sb.remove "active", rfl, ?_, ?_, ?_⟩ <;>
    simp [report, Element.contains_remove]

theorem consistent_callHandler (h : Handler) (key : String) (w : World)
    (hw : Consistent w) : Consistent (report (callHandler h key w)) := by
  have hw1 := hw
  obtain ⟨sb, hs, hb, ho, hv⟩ := hw1
  cases h with
  | toggleSidebar => exact consistent_toggleSidebar w hw
  | closeSidebar => exact consistent_closeSidebar w hw
  | menuItemClick =>
    by_cases hi : w.innerWidth ≤ 768
    · simpa [callHandler, menuItemClick, hi] using consistent_closeSidebar w hw
    · simpa [callHandler, menuItemClick, hi, report] using hw
  | keydown =>
    by_cases hk : key = "Escape"
    · cases hc : sb.contains "active"
      · simpa [callHandler, keydownHandler, hk, hs, hc, report] using hw
      · simpa [callHandler, keydownHandler, hk, hs, hc] using consistent_closeSidebar w hw
    · simpa [callHandler, keydownHandler, hk, report] using hw
  | resize =>
    refine ⟨sb, ?_, ?_, ?_, ?_⟩
    · cases hr : w.resizeTimer <;>
        simpa [callHandler, resizeHandler, clearTimeout, setTimeout, report, hr] using hs
    · cases hr : w.resizeTimer <;>
        simpa [callHandler, resizeHandler, clearTimeout, setTimeout, report, hr] using hb
    · cases hr : w.resizeTimer <;>
        simpa [callHandler, resizeHandler, clearTimeout, setTimeout, report, hr] using ho
    · cases hr : w.resizeTimer <;>
        simpa [callHandler, resizeHandler, clearTimeout, setTimeout, report, hr] using hv
  | load =>
    refine ⟨{ sb with transition :=
      "transform var(--transition-normal), width var(--transition-normal)" }, ?_, ?_, ?_, ?_⟩
    · simp [callHandler, loadHandler, hs, report]
    · simpa [callHandler, loadHandler, hs, report, Element.contains] using hb
    · simpa [callHandler, loadHandler, hs, report, Element.contains] using ho
    · simpa [callHandler, loadHandler, hs, report, Element.contains] using hv
  | scrollToTop =>
    exact ⟨sb, by simpa [callHandler, scrollToTop, report] using hs,
      by simpa [callHandler, scrollToTop, report] using hb,
      by simpa [callHandler, scrollToTop, report] using ho,
      by simpa [callHandler, scrollToTop, report] using hv⟩

theorem consistent_resizeCallback (w : World) (hw : Consistent w) :
    Consistent (report (resizeCallback w)) := by
  have hw1 := hw
  obtain ⟨sb, hs, -⟩ := hw1
  by_cases hi : 768 < w.innerWidth
  · cases hc : sb.contains "active"
    · simpa [resizeCallback, hi, hs, hc, report] using hw
    · simpa [resizeCallback, hi, hs, hc] using consistent_closeSidebar w hw
  · simpa [resizeCallback, hi, report] using hw

theorem consistent_foldl {α : Type} (f : World → α → World)
    (hf : ∀ w a, Consistent w → Consistent (f w a)) (l : List α) :
    ∀ w, Consistent w → Consistent (l.foldl f w) := by
  induction l with
  | nil => intro w hw; exact hw
  | cons a l ih => intro w hw; exact ih _ (hf w a hw)

theorem consistent_dispatch (target : Target) (event key : String) (w : World)
    (hw : Consistent w) : Consistent (dispatch target event key w) :=
  consistent_foldl _ (fun w l h => consistent_callHandler l.handler key w h) _ w hw

theorem consistent_fireTimers (w : World) (hw : Consistent w) :
    Consistent (fireTimers w) := by
  refine consistent_foldl _ (fun w t h => consistent_resizeCallback _ ?_) _ _ ?_
  · exact h
  · exact hw

theorem consistent_step (e : Event) (w : World) (hw : Consistent w) :
    Consistent (step e w) := by
  cases e with
  | click t anc =>
    exact consistent_foldl _ (fun v x h => consistent_dispatch x _ _ v h) _ w hw
  | keydown k => exact consistent_dispatch _ _ _ _ hw
  | resize iw => exact consistent_dispatch _ _ _ _ hw
  | load => exact consistent_dispatch _ _ _ _ hw
  | elapse ms => exact consistent_fireTimers _ hw

theorem consistent_run (es : List Event) (w : World) (hw : Consistent w) :
    Consistent (run es w) :=
  consistent_foldl _ (fun w e h => consistent_step e w h) es w hw

theorem consistent_initialise (host : HostPage) (sb : Element)
    (hs : host.sidebar = some sb) (hc : sb.contains "active" = false)
    (hb : host.bodyOverflow ≠ "hidden") : Consistent (initialise host) := by
  have hbtn : Element.contains ⟨["hamburger-btn"], some "Toggle menu",
      "\n        <span></span>\n        <span></span>\n        <span></span>\n    ", ""⟩
      "active" = false := by decide
  have hovl : Element.contains ⟨["sidebar-overlay"], none, "", ""⟩ "active" = false := by
    decide
  refine ⟨sb, ?_, ?_, ?_, ?_⟩
  · simp [initialise, hs]
  · simp [initialise, hs, hc, hbtn]
  · simp [initialise, hs, hc, hovl]
  · simp [initialise, hs, hc, hb]

/-- C1, refuted on `activeHost`, whose panel markup carries "active":
initialisation leaves the panel active beside an inactive toggle control and
overlay and a clear scroll-lock, and one click on the toggle control gives an
active toggle control and overlay beside an inactive panel. -/
theorem inconsistent_after_initialise :
    ¬ Consistent (run [] (initialise activeHost)) ∧
    ¬ Consistent (run [.click .hamburgerBtn []] (initialise activeHost)) ∧
    (initialise activeHost).hamburgerBtn.contains "active" = false ∧
    (initialise activeHost).overlay.contains "active" = false ∧
    isOpen (initialise activeHost) = true ∧
    (initialise activeHost).bodyOverflow = "" ∧
    (run [.click .hamburgerBtn []] (initialise activeHost)).hamburgerBtn.contains "active"
      = true ∧
    (run [.click .hamburgerBtn []] (initialise activeHost)).overlay.contains "active"
      = true ∧
    isOpen (run [.click .hamburgerBtn []] (initialise activeHost)) = false ∧
    (run [.click .hamburgerBtn []] (initialise activeHost)).bodyOverflow = "" := by
  refine ⟨?_, ?_, by decide, by decide, by decide, by decide, by decide, by decide,
    by decide, by decide⟩
  · rintro ⟨sb, hs, hb, -⟩
    have h : (run [] (initialise activeHost)).sidebar
        = some ⟨["sidebar", "active"], none, "", ""⟩ := by decide
    rw [h] at hs
    cases hs
    revert hb
    decide
  · rintro ⟨sb, hs, hb, -⟩
    have h : (run [.click .hamburgerBtn []] (initialise activeHost)).sidebar
        = some ⟨["sidebar"], none, "", ""⟩ := by decide
    rw [h] at hs
    cases hs
    revert hb
    decide

/-- C1 as amended: on a host page that has the panel and whose markup starts
closed (the panel does not carry "active", the body overflow is not "hidden"),
after every finite sequence of events delivered to the initialised page the
three "active" indicators are equal and the body overflow is "hidden" exactly
when they are active. -/
theorem consistent_reachable (host : HostPage) (sb : Element)
    (hs : host.sidebar = some sb) (hc : sb.contains "active" = false)
    (hb : host.bodyOverflow ≠ "hidden") (es : List Event) :
    Consistent (run es (initialise host)) :=
  consistent_run es _ (consistent_initialise host sb hs hc hb)

/-- C1 as amended, on `demoHost` after a toggle click, a resize to 1200, the quiet
period, a second toggle click, a menu-entry click, "Escape" and load. -/
theorem consistent_reachable_witness :
    Consistent (run [.click .hamburgerBtn [], .resize 1200, .elapse 250, .click .hamburgerBtn [],
      .click (.menuItem 0) [], .keydown "Escape", .load, .click .overlay []] (initialise demoHost)) :=
  consistent_reachable demoHost ⟨["sidebar"], none, "", ""⟩ rfl (by decide) (by decide) _

/-! ## A page without the panel -/

theorem foldl_invariant {α : Type} (P : World → Prop) (f : World → α → World)
    (l : List α) (hf : ∀ w a, a ∈ l → P w → P (f w a)) :
    ∀ w, P w → P (l.foldl f w) := by
  induction l with
  | nil => intro w hw; exact hw
  | cons a l ih =>
    intro w hw
    exact ih (fun w b hb h => hf w b (List.mem_cons_of_mem _ hb) h) _
      (hf w a (List.mem_cons_self _ _) hw)

theorem mem_scrollListeners (host : HostPage) (l : Listener)
    (h : l ∈ scrollListeners host) : ∃ i, l = ⟨.menuItem i, "click", .scrollToTop⟩ := by
  simp only [scrollListeners, List.mem_map] at h
  obtain ⟨i, -, rfl⟩ := h
  exact ⟨i, rfl⟩

theorem mem_closeListeners (host : HostPage) (l : Listener)
    (h : l ∈ closeListeners host) : ∃ i, l = ⟨.menuItem i, "click", .menuItemClick⟩ := by
  simp only [closeListeners, List.mem_map] at h
  obtain ⟨i, -, rfl⟩ := h
  exact ⟨i, rfl⟩

theorem filter_scrollListeners_other (host : HostPage) (t : Target) (event : String)
    (ht : ∀ i, t ≠ .menuItem i) :
    (scrollListeners host).filter (fun l => decide (l.target = t ∧ l.event = event)) = [] := by
  rw [List.filter_eq_nil_iff]
  intro l hl
  obtain ⟨i, rfl⟩ := mem_scrollListeners host l hl
  have := ht i
  simp [Ne.symm this]

theorem filter_closeListeners_other (host : HostPage) (t : Target) (event : String)
    (ht : ∀ i, t ≠ .menuItem i) :
    (closeListeners host).filter (fun l => decide (l.target = t ∧ l.event = event)) = [] := by
  rw [List.filter_eq_nil_iff]
  intro l hl
  obtain ⟨i, rfl⟩ := mem_closeListeners host l hl
  have := ht i
  simp [Ne.symm this]

theorem initialise_none (host : HostPage) (h : host.sidebar = none) :
    Unbound host (initialise host) ∧ (initialise host).errors = [typeErrorNull] := by
  simp [initialise, h, Unbound, unboundListeners, report]

theorem unbound_callHandler (host : HostPage) (l : Listener) (key : String) (w : World)
    (hl : l ∈ unboundListeners host) (hw : Unbound host w) :
    Unbound host (report (callHandler l.handler key w)) := by
  obtain ⟨hs, ht, hls⟩ := hw
  simp only [unboundListeners, List.mem_append, List.mem_cons, List.mem_singleton,
    List.not_mem_nil, or_false] at hl
  rcases hl with hl | rfl | rfl
  · obtain ⟨i, rfl⟩ := mem_scrollListeners host l hl
    exact ⟨by simpa [callHandler, scrollToTop, report] using hs,
      by simpa [callHandler, scrollToTop, report] using ht,
      by simpa [callHandler, scrollToTop, report] using hls⟩
  · exact ⟨by simp [callHandler, toggleSidebar, hs, report],
      by simpa [callHandler, toggleSidebar, hs, report] using ht,
      by simpa [callHandler, toggleSidebar, hs, report] using hls⟩
  · exact ⟨by simp [callHandler, closeSidebar, hs, report],
      by simpa [callHandler, closeSidebar, hs, report] using ht,
      by simpa [callHandler, closeSidebar, hs, report] using hls⟩

theorem unbound_dispatch (host : HostPage) (t : Target) (event key : String) (w : World)
    (hw : Unbound host w) : Unbound host (dispatch t event key w) := by
  unfold dispatch
  refine foldl_invariant (Unbound host) _ _ ?_ w hw
  intro w1 l hl h1
  refine unbound_callHandler host l key w1 ?_ h1
  rw [← hw.2.2]
  exact List.mem_of_mem_filter hl

theorem unbound_step (host : HostPage) (e : Event) (w : World) (hw : Unbound host w) :
    Unbound host (step e w) := by
  cases e with
  | click t anc =>
    exact foldl_invariant (Unbound host) _ _
      (fun v x _ h => unbound_dispatch host x _ _ v h) w hw
  | keydown k => exact unbound_dispatch host _ _ _ _ hw
  | resize iw => exact unbound_dispatch host _ _ _ _ ⟨hw.1, hw.2.1, hw.2.2⟩
  | load => exact unbound_dispatch host _ _ _ _ hw
  | elapse ms =>
    obtain ⟨hs, ht, hls⟩ := hw
    simp only [step, fireTimers, ht, List.filter_nil, List.foldl_nil]
    exact ⟨hs, rfl, hls⟩

theorem unbound_run (host : HostPage) (es : List Event) (w : World) (hw : Unbound host w) :
    Unbound host (run es w) :=
  foldl_invariant (Unbound host) _ es (fun w e _ h => unbound_step host e w h) w hw

theorem filter_unboundListeners_other (host : HostPage) (t : Target) (event : String)
    (ht : ∀ i, t ≠ .menuItem i) (hb : t ≠ .hamburgerBtn) (ho : t ≠ .overlay) :
    (unboundListeners host).filter (fun l => decide (l.target = t ∧ l.event = event))
      = [] := by
  rw [unboundListeners, List.filter_append, filter_scrollListeners_other host t event ht]
  simp [List.filter_cons, Ne.symm hb, Ne.symm ho]

theorem filter_unboundListeners_hamburgerBtn (host : HostPage) :
    (unboundListeners host).filter
        (fun l => decide (l.target = .hamburgerBtn ∧ l.event = "click"))
      = [⟨.hamburgerBtn, "click", .toggleSidebar⟩] := by
  rw [unboundListeners, List.filter_append,
    filter_scrollListeners_other host .hamburgerBtn "click" (by simp)]
  rfl

theorem filter_unboundListeners_overlay (host : HostPage) :
    (unboundListeners host).filter
        (fun l => decide (l.target = .overlay ∧ l.event = "click"))
      = [⟨.overlay, "click", .closeSidebar⟩] := by
  rw [unboundListeners, List.filter_append,
    filter_scrollListeners_other host .overlay "click" (by simp)]
  rfl

theorem unbound_dispatch_other (host : HostPage) (t : Target) (event key : String)
    (w : World) (hw : Unbound host w) (ht : ∀ i, t ≠ .menuItem i)
    (hb : t ≠ .hamburgerBtn) (ho : t ≠ .overlay) : dispatch t event key w = w := by
  obtain ⟨-, -, hls⟩ := hw
  rw [dispatch, hls, filter_unboundListeners_other host t event ht hb ho]
  rfl

theorem unbound_click_hamburgerBtn (host : HostPage) (w : World) (hw : Unbound host w) :
    step (.click .hamburgerBtn []) w =
      { w with hamburgerBtn := w.hamburgerBtn.toggle "active"
               errors := w.errors ++ [typeErrorNull] } := by
  obtain ⟨hs, -, hls⟩ := hw
  show dispatch .hamburgerBtn "click" "" w = _
  rw [dispatch, hls, filter_unboundListeners_hamburgerBtn]
  simp [callHandler, toggleSidebar, hs, report, hls]

theorem unbound_click_overlay (host : HostPage) (w : World) (hw : Unbound host w) :
    step (.click .overlay []) w =
      { w with hamburgerBtn := w.hamburgerBtn.remove "active"
               errors := w.errors ++ [typeErrorNull] } := by
  obtain ⟨hs, -, hls⟩ := hw
  show dispatch .overlay "click" "" w = _
  rw [dispatch, hls, filter_unboundListeners_overlay]
  simp [callHandler, closeSidebar, hs, report, hls]

/-- C2, refuted on a page without the panel: initialisation raises, and a
click on the toggle control or on the overlay raises again; the toggle click
also changes the state. -/
theorem missing_panel_raises :
    barePage.sidebar = none ∧
    (initialise barePage).errors = [typeErrorNull] ∧
    (step (.click .hamburgerBtn []) (initialise barePage)).errors
      = [typeErrorNull, typeErrorNull] ∧
    (step (.click .hamburgerBtn []) (initialise barePage)).hamburgerBtn.contains "active"
      = true ∧
    (initialise barePage).hamburgerBtn.contains "active" = false ∧
    (step (.click .overlay []) (initialise barePage)).errors
      = [typeErrorNull, typeErrorNull] := by
  decide

/-- C2 as amended: on a host page without the panel, initialisation binds the
click listeners of the toggle control and the overlay and then raises one
TypeError at the first dereference of the panel, so the keydown, resize and
load listeners are never bound.  In every state reached afterwards a keydown, a
load, a resize and the passing of time raise nothing and change nothing (but
the recorded width and time), while a click on the toggle control or on the
overlay raises a TypeError after updating the toggle control. -/
theorem missing_panel_behaviour (host : HostPage) (h : host.sidebar = none)
    (es : List Event) :
    (initialise host).errors = [typeErrorNull] ∧
    (initialise host).listeners = unboundListeners host ∧
    (∀ key, step (.keydown key) (run es (initialise host)) = run es (initialise host)) ∧
    step .load (run es (initialise host)) = run es (initialise host) ∧
    (∀ iw, step (.resize iw) (run es (initialise host))
      = { run es (initialise host) with innerWidth := iw }) ∧
    (∀ ms, step (.elapse ms) (run es (initialise host))
      = { run es (initialise host) with now := (run es (initialise host)).now + ms }) ∧
    step (.click .hamburgerBtn []) (run es (initialise host))
      = { run es (initialise host) with
            hamburgerBtn := (run es (initialise host)).hamburgerBtn.toggle "active"
            errors := (run es (initialise host)).errors ++ [typeErrorNull] } ∧
    step (.click .overlay []) (run es (initialise host))
      = { run es (initialise host) with
            hamburgerBtn := (run es (initialise host)).hamburgerBtn.remove "active"
            errors := (run es (initialise host)).errors ++ [typeErrorNull] } := by
  obtain ⟨hu, he⟩ := initialise_none host h
  have hr := unbound_run host es _ hu
  refine ⟨he, hu.2.2, ?_, ?_, ?_, ?_, ?_, ?_⟩
  · intro key
    exact unbound_dispatch_other host _ _ _ _ hr (by simp) (by simp) (by simp)
  · exact unbound_dispatch_other host _ _ _ _ hr (by simp) (by simp) (by simp)
  · intro iw
    exact unbound_dispatch_other host .window "resize" "" _ ⟨hr.1, hr.2.1, hr.2.2⟩
      (by simp) (by simp) (by simp)
  · intro ms
    simp [step, fireTimers, hr.2.1]
  · exact unbound_click_hamburgerBtn host _ hr
  · exact unbound_click_overlay host _ hr

/-- C2 as amended, on `noPanelHost` after a click on its menu entry. -/
theorem missing_panel_behaviour_witness :
    step .load (run [.click (.menuItem 0) []] (initialise noPanelHost))
      = run [.click (.menuItem 0) []] (initialise noPanelHost) :=
  (missing_panel_behaviour noPanelHost rfl [.click (.menuItem 0) []]).2.2.2.1

/-! ## Clicks on menu entries -/

theorem mem_menuItemIds (p : MenuItem → Bool) (items : List MenuItem) (i : Nat) :
    i ∈ menuItemIds p items ↔ ∃ m, items[i]? = some m ∧ p m = true := by
  simp only [menuItemIds, List.mem_filter, List.mem_range]
  constructor
  · rintro ⟨hi, hp⟩
    rw [List.getElem?_eq_getElem hi] at hp
    exact ⟨items[i], List.getElem?_eq_getElem hi, hp⟩
  · rintro ⟨m, hm, hp⟩
    obtain ⟨hi, rfl⟩ := List.getElem?_eq_some_iff.mp hm
    refine ⟨hi, ?_⟩
    rw [List.getElem?_eq_getElem hi]
    exact hp

theorem nodup_menuItemIds (p : MenuItem → Bool) (items : List MenuItem) :
    (menuItemIds p items).Nodup :=
  (List.nodup_range _).filter _

theorem filter_menuItem_map (h : Handler) (i : Nat) (ids : List Nat) (hn : ids.Nodup) :
    (ids.map (fun j => (⟨.menuItem j, "click", h⟩ : Listener))).filter
        (fun l => decide (l.target = .menuItem i ∧ l.event = "click"))
      = if i ∈ ids then [⟨.menuItem i, "click", h⟩] else [] := by
  induction ids with
  | nil => rfl
  | cons j ids ih =>
    obtain ⟨hj, hn1⟩ := List.nodup_cons.mp hn
    rw [List.map_cons, List.filter_cons, ih hn1]
    by_cases hji : j = i
    · subst hji
      simp [hj]
    · have hij : ¬ i = j := fun e => hji e.symm
      simp [hji, hij]

theorem filter_boundListeners_menuItem (host : HostPage) (i : Nat) :
    (boundListeners host).filter
        (fun l => decide (l.target = .menuItem i ∧ l.event = "click"))
      = (if i ∈ menuItemIds (fun m => m.atScriptRun) host.menuItems
          then [⟨.menuItem i, "click", .scrollToTop⟩] else []) ++
        (if i ∈ menuItemIds (fun m => m.inSidebar) host.menuItems
          then [⟨.menuItem i, "click", .menuItemClick⟩] else []) := by
  rw [boundListeners, unboundListeners, List.filter_append, List.filter_append,
    List.filter_append, scrollListeners, closeListeners,
    filter_menuItem_map _ i _ (nodup_menuItemIds _ _),
    filter_menuItem_map _ i _ (nodup_menuItemIds _ _)]
  simp [List.filter_cons]

theorem initialise_some (host : HostPage) (sb : Element) (hs : host.sidebar = some sb) :
    (initialise host).listeners = boundListeners host := by
  simp [initialise, hs, boundListeners, unboundListeners]

theorem listeners_callHandler (h : Handler) (key : String) (w : World) :
    (report (callHandler h key w)).listeners = w.listeners := by
  cases h with
  | toggleSidebar =>
    cases hs : w.sidebar with
    | none => simp [callHandler, toggleSidebar, hs, report]
    | some sb => simp [callHandler, toggleSidebar_some w sb hs, report]
  | closeSidebar =>
    cases hs : w.sidebar with
    | none => simp [callHandler, closeSidebar, hs, report]
    | some sb => simp [callHandler, closeSidebar_some w sb hs, report]
  | menuItemClick =>
    by_cases hi : w.innerWidth ≤ 768
    · cases hs : w.sidebar with
      | none => simp [callHandler, menuItemClick, hi, closeSidebar, hs, report]
      | some sb => simp [callHandler, menuItemClick, hi, closeSidebar_some w sb hs, report]
    · simp [callHandler, menuItemClick, hi, report]
  | keydown =>
    by_cases hk : key = "Escape"
    · cases hs : w.sidebar with
      | none => simp [callHandler, keydownHandler, hk, hs, report]
      | some sb =>
        cases hc : sb.contains "active" <;>
          simp [callHandler, keydownHandler, hk, hs, hc, closeSidebar, report]
    · simp [callHandler, keydownHandler, hk, report]
  | resize =>
    cases hr : w.resizeTimer <;>
      simp [callHandler, resizeHandler, clearTimeout, setTimeout, report, hr]
  | load =>
    cases hs : w.sidebar <;> simp [callHandler, loadHandler, hs, report]
  | scrollToTop => simp [callHandler, scrollToTop, report]

theorem listeners_dispatch (t : Target) (event key : String) (w : World) :
    (dispatch t event key w).listeners = w.listeners :=
  foldl_invariant (fun v => v.listeners = w.listeners) _ _
    (fun v l _ hv => (listeners_callHandler l.handler _ v).trans hv) w rfl

theorem listeners_step (e : Event) (w : World) : (step e w).listeners = w.listeners := by
  cases e with
  | click t anc =>
    exact foldl_invariant (fun v => v.listeners = w.listeners) _ _
      (fun v x _ hv => (listeners_dispatch x _ _ v).trans hv) w rfl
  | keydown k =>
    exact foldl_invariant (fun v => v.listeners = w.listeners) _ _
      (fun v l _ hv => (listeners_callHandler l.handler _ v).trans hv) w rfl
  | resize iw =>
    exact foldl_invariant (fun v => v.listeners = w.listeners) _ _
      (fun v l _ hv => (listeners_callHandler l.handler _ v).trans hv) _ rfl
  | load =>
    exact foldl_invariant (fun v => v.listeners = w.listeners) _ _
      (fun v l _ hv => (listeners_callHandler l.handler _ v).trans hv) w rfl
  | elapse ms =>
    exact foldl_invariant (fun v => v.listeners = w.listeners) _ _
      (fun v t _ hv => by
        rw [← hv]
        by_cases hi : 768 < v.innerWidth
        · cases hs : v.sidebar with
          | none => simp [resizeCallback, hi, hs, report]
          | some sb =>
            cases hc : sb.contains "active" <;>
              simp [resizeCallback, hi, hs, hc, closeSidebar, report]
        · simp [resizeCallback, hi, report]) _ rfl

theorem listeners_run (es : List Event) (w : World) : (run es w).listeners = w.listeners :=
  foldl_invariant (fun v => v.listeners = w.listeners) _ es
    (fun v e _ hv => (listeners_step e v).trans hv) w rfl

theorem report_closeSidebar_scrolls (w : World) :
    (report (closeSidebar w)).scrolls = w.scrolls := by
  cases hs : w.sidebar <;> simp [closeSidebar, hs, report]

theorem report_menuItemClick_scrolls (w : World) :
    (report (menuItemClick w)).scrolls = w.scrolls := by
  by_cases hi : w.innerWidth ≤ 768
  · simpa [menuItemClick, hi] using report_closeSidebar_scrolls w
  · simp [menuItemClick, hi, report]

theorem mem_boundListeners_scroll (host : HostPage) (j : Nat) :
    (⟨.menuItem j, "click", .scrollToTop⟩ : Listener) ∈ boundListeners host ↔
      j ∈ menuItemIds (fun m => m.atScriptRun) host.menuItems := by
  simp [boundListeners, unboundListeners, scrollListeners, closeListeners]

theorem mem_boundListeners_close (host : HostPage) (j : Nat) :
    (⟨.menuItem j, "click", .menuItemClick⟩ : Listener) ∈ boundListeners host ↔
      j ∈ menuItemIds (fun m => m.inSidebar) host.menuItems := by
  simp [boundListeners, unboundListeners, scrollListeners, closeListeners]

theorem dispatch_menuItem (host : HostPage) (w : World) (j : Nat)
    (hl : w.listeners = boundListeners host) :
    dispatch (.menuItem j) "click" "" w = clickAt host w j := by
  rw [dispatch, hl, filter_boundListeners_menuItem, clickAt]
  by_cases h1 : j ∈ menuItemIds (fun m => m.atScriptRun) host.menuItems <;>
    by_cases h2 : j ∈ menuItemIds (fun m => m.inSidebar) host.menuItems <;>
      simp [h1, h2, callHandler]

theorem bubble_menuItems (host : HostPage) (js : List Nat) :
    ∀ w : World, w.listeners = boundListeners host →
      (js.map Target.menuItem).foldl (fun w t => dispatch t "click" "" w) w
        = js.foldl (clickAt host) w := by
  induction js with
  | nil => intro w _; rfl
  | cons j js ih =>
    intro w hl
    rw [List.map_cons, List.foldl_cons, List.foldl_cons, ih _
      ((listeners_dispatch _ _ _ w).trans hl), dispatch_menuItem host w j hl]

theorem scrolls_clickAt (host : HostPage) (w : World) (j : Nat) :
    (clickAt host w j).scrolls = w.scrolls ++
      List.replicate (scrollCount host [j]) ⟨0, "smooth"⟩ := by
  have hsc : (report (scrollToTop w)).scrolls = w.scrolls ++ [⟨0, "smooth"⟩] := rfl
  by_cases h1 : j ∈ menuItemIds (fun m => m.atScriptRun) host.menuItems <;>
    by_cases h2 : j ∈ menuItemIds (fun m => m.inSidebar) host.menuItems <;>
      simp only [clickAt, scrollCount, h1, h2, if_true, if_false,
        report_menuItemClick_scrolls, hsc, List.countP_cons, List.countP_nil, decide_True,
        decide_False] <;>
      simp

theorem scrolls_foldl_clickAt (host : HostPage) (js : List Nat) :
    ∀ w : World, (js.foldl (clickAt host) w).scrolls = w.scrolls ++
      List.replicate (scrollCount host js) ⟨0, "smooth"⟩ := by
  induction js with
  | nil => intro w; simp [scrollCount]
  | cons j js ih =>
    intro w
    rw [List.foldl_cons, ih, scrolls_clickAt, List.append_assoc, ← List.replicate_add]
    have : scrollCount host [j] + scrollCount host js = scrollCount host (j :: js) := by
      simp only [scrollCount, List.countP_cons, List.countP_nil]
      omega
    rw [this]

/-- C9, refuted on `splitHost`: the two listeners are attached to different
entries; a click on the entry inside the panel requests no scroll, and a click
on the entry outside the panel leaves the open sidebar open at width 500. -/
theorem menuItem_listeners_differ :
    (scrollListeners splitHost).map (fun l => l.target) = [.menuItem 1] ∧
    (closeListeners splitHost).map (fun l => l.target) = [.menuItem 0] ∧
    (run [.click (.menuItem 0) []] (initialise splitHost)).scrolls = [] ∧
    (run [.click .hamburgerBtn []] (initialise splitHost)).innerWidth = 500 ∧
    isOpen (run [.click .hamburgerBtn []] (initialise splitHost)) = true ∧
    isOpen (run [.click .hamburgerBtn [], .click (.menuItem 1) []] (initialise splitHost))
      = true := by
  decide

/-- C9 as amended: on a host page with the panel, the scroll-to-top listener is
attached to the menu entries that are in the document when the script is run,
and the close-on-mobile listener to the menu entries inside the panel at
DOMContentLoaded.  A click on an entry runs the listeners attached to it and
then, as it bubbles, those attached to each menu entry that encloses it, and
requests one smooth scroll to top 0 for each of these entries that carries the
scroll-to-top listener.  For an entry in both sets, at every viewport width and
in every sidebar state, both listeners run and at least one such scroll is
requested; exactly one when no menu entry encloses it. -/
theorem menuItem_click_listeners (host : HostPage) (sb : Element) (w : World) (i : Nat)
    (anc : List Nat)
    (hs : host.sidebar = some sb) (hl : w.listeners = (initialise host).listeners) :
    (∀ j, (⟨.menuItem j, "click", .scrollToTop⟩ : Listener) ∈ (initialise host).listeners ↔
      ∃ m, host.menuItems[j]? = some m ∧ m.atScriptRun = true) ∧
    (∀ j, (⟨.menuItem j, "click", .menuItemClick⟩ : Listener) ∈ (initialise host).listeners ↔
      ∃ m, host.menuItems[j]? = some m ∧ m.inSidebar = true) ∧
    step (.click (.menuItem i) anc) w = (i :: anc).foldl (clickAt host) w ∧
    (step (.click (.menuItem i) anc) w).scrolls
      = w.scrolls ++ List.replicate (scrollCount host (i :: anc)) ⟨0, "smooth"⟩ ∧
    (host.menuItems[i]? = some ⟨true, true⟩ →
      step (.click (.menuItem i) anc) w
        = anc.foldl (clickAt host) (report (menuItemClick (report (scrollToTop w)))) ∧
      1 ≤ scrollCount host (i :: anc) ∧
      step (.click (.menuItem i) []) w = report (menuItemClick (report (scrollToTop w))) ∧
      (step (.click (.menuItem i) []) w).scrolls = w.scrolls ++ [⟨0, "smooth"⟩]) := by
  have hb : w.listeners = boundListeners host := hl.trans (initialise_some host sb hs)
  have hstep : ∀ js : List Nat,
      step (.click (.menuItem i) js) w = (i :: js).foldl (clickAt host) w := by
    intro js
    show ((i :: js).map Target.menuItem).foldl (fun w t => dispatch t "click" "" w) w = _
    exact bubble_menuItems host (i :: js) w hb
  refine ⟨?_, ?_, hstep anc, ?_, ?_⟩
  · intro j
    rw [initialise_some host sb hs, mem_boundListeners_scroll, mem_menuItemIds]
  · intro j
    rw [initialise_some host sb hs, mem_boundListeners_close, mem_menuItemIds]
  · rw [hstep, scrolls_foldl_clickAt]
  · intro hi
    have h1 : i ∈ menuItemIds (fun m => m.atScriptRun) host.menuItems :=
      (mem_menuItemIds _ _ _).mpr ⟨_, hi, rfl⟩
    have h2 : i ∈ menuItemIds (fun m => m.inSidebar) host.menuItems :=
      (mem_menuItemIds _ _ _).mpr ⟨_, hi, rfl⟩
    have e : clickAt host w i = report (menuItemClick (report (scrollToTop w))) := by
      simp only [clickAt, h1, h2, if_true]
    have e0 : step (.click (.menuItem i) []) w
        = report (menuItemClick (report (scrollToTop w))) := by
      rw [hstep, List.foldl_cons, List.foldl_nil, e]
    refine ⟨?_, ?_, e0, ?_⟩
    · rw [hstep, List.foldl_cons, e]
    · simp [scrollCount, List.countP_cons, h1]
    · rw [e0, report_menuItemClick_scrolls]
      rfl

/-- C9 as amended, on `demoHost` with the sidebar open at width 500, for a
click on entry 1 taken to lie inside entry 0: both entries carry both
listeners, so two scrolls are requested. -/
theorem menuItem_click_listeners_witness :
    (step (.click (.menuItem 1) [0]) openWorld).scrolls
      = openWorld.scrolls ++ List.replicate (scrollCount demoHost [1, 0]) ⟨0, "smooth"⟩ ∧
    step (.click (.menuItem 1) []) openWorld
      = report (menuItemClick (report (scrollToTop openWorld))) :=
  ⟨(menuItem_click_listeners demoHost ⟨["sidebar"], none, "", ""⟩ openWorld 1 [0] rfl
      (by decide)).2.2.2.1,
   ((menuItem_click_listeners demoHost ⟨["sidebar"], none, "", ""⟩ openWorld 1 [0] rfl
      (by decide)).2.2.2.2 rfl).2.2.1⟩

/-! ## The resize debounce -/

theorem step_resize (w : World) (iw : Nat) (hb : ResizeBound w) :
    step (.resize iw) w = report (resizeHandler { w with innerWidth := iw }) := by
  have hb1 : ({ w with innerWidth := iw } : World).listeners.filter
      (fun l => decide (l.target = .window ∧ l.event = "resize"))
        = [⟨.window, "resize", .resize⟩] := hb
  rw [step, dispatch, hb1]
  rfl

theorem step_resize_idle (w : World) (iw : Nat) (hb : ResizeBound w) (ht : w.timers = []) :
    step (.resize iw) w = pendingWorld w iw w.now w.nextTimerId := by
  rw [step_resize w iw hb]
  cases hr : w.resizeTimer <;>
    simp [resizeHandler, clearTimeout, setTimeout, report, pendingWorld, hr, ht]

theorem step_elapse_resize_pending (w : World) (iw t k gap width : Nat)
    (hb : ResizeBound w) (hg : gap < 250) :
    step (.resize width) (step (.elapse gap) (pendingWorld w iw t k))
      = pendingWorld w width (t + gap) (k + 1) := by
  have h1 : step (.elapse gap) (pendingWorld w iw t k)
      = waitingWorld w iw (t + gap) (t + 250) k := by
    have hnd : ¬ t + 250 ≤ t + gap := by omega
    simp [step, fireTimers, pendingWorld, waitingWorld, hnd, hg, List.filter_cons]
  rw [h1, step_resize (waitingWorld w iw (t + gap) (t + 250) k) width hb]
  simp [resizeHandler, clearTimeout, setTimeout, report, pendingWorld, waitingWorld]

theorem step_elapse_quiet (w : World) (iw t k quiet : Nat) (hq : 250 ≤ quiet) :
    step (.elapse quiet) (pendingWorld w iw t k)
      = report (resizeCallback (evaluationWorld w iw t k quiet)) := by
  have hd : t + 250 ≤ t + quiet := by omega
  have hnd : ¬ t + quiet < t + 250 := by omega
  simp [step, fireTimers, pendingWorld, evaluationWorld, hd, hnd, List.filter_cons]

theorem run_cons (e : Event) (es : List Event) (w : World) :
    run (e :: es) w = run es (step e w) := rfl

theorem run_burst_pending (rest : List (Nat × Nat)) :
    ∀ (w : World) (iw t k : Nat), ResizeBound w → (∀ p ∈ rest, p.1 < 250) →
      run (burst rest) (pendingWorld w iw t k)
        = pendingWorld w (lastWidth iw rest) (t + burstLength rest) (k + rest.length) := by
  induction rest with
  | nil => intro w iw t k _ _; rfl
  | cons p rest ih =>
    obtain ⟨gap, width⟩ := p
    intro w iw t k hb hg
    have hgap : gap < 250 := hg (gap, width) (List.mem_cons_self _ _)
    rw [burst, run_cons, run_cons, step_elapse_resize_pending w iw t k gap width hb hgap,
      ih w width (t + gap) (k + 1) hb (fun p hp => hg p (List.mem_cons_of_mem _ hp))]
    have e1 : t + gap + burstLength rest = t + burstLength ((gap, width) :: rest) := by
      simp [burstLength]; omega
    have e2 : k + 1 + rest.length = k + ((gap, width) :: rest).length := by
      simp; omega
    rw [e1, e2]
    rfl

theorem run_append (es fs : List Event) (w : World) :
    run (es ++ fs) w = run fs (run es w) := by
  simp [run, List.foldl_append]

theorem report_resizeCallback_evaluations (w : World) :
    (report (resizeCallback w)).evaluations = w.evaluations ∧
    (report (resizeCallback w)).timers = w.timers := by
  by_cases hi : 768 < w.innerWidth
  · cases hs : w.sidebar with
    | none => simp [resizeCallback, hi, hs, report]
    | some sb =>
      cases hc : sb.contains "active" <;>
        simp [resizeCallback, hi, hs, hc, report, closeSidebar]
  · simp [resizeCallback, hi, report]

/-- In every state reached from a complete initialisation the window has
exactly the one `resize` listener. -/
theorem resizeBound_reachable (host : HostPage) (sb : Element)
    (hs : host.sidebar = some sb) (es : List Event) :
    ResizeBound (run es (initialise host)) := by
  unfold ResizeBound
  rw [listeners_run, initialise_some host sb hs, boundListeners, unboundListeners,
    List.filter_append, List.filter_append, List.filter_append,
    filter_scrollListeners_other host .window "resize" (by simp),
    filter_closeListeners_other host .window "resize" (by simp)]
  rfl

/-- C6: from a state with the resize listener bound and no timer pending, a
burst of resize events with less than 250 ms between consecutive events,
followed by at least 250 ms of quiet, runs exactly one evaluation: no
evaluation runs during the burst, and the quiet period runs the evaluation
scheduled by the last event, due 250 ms after it, at the last width; the final
state is that of one call of the resize evaluation, so `closeSidebar` is
called at most once. -/
theorem resize_debounce (w : World) (first : Nat) (rest : List (Nat × Nat)) (quiet : Nat)
    (hb : ResizeBound w) (ht : w.timers = [])
    (hg : ∀ p ∈ rest, p.1 < 250) (hq : 250 ≤ quiet) :
    (run (.resize first :: burst rest) w).evaluations = w.evaluations ∧
    (run (.resize first :: burst rest) w).timers
      = [⟨w.nextTimerId + rest.length, w.now + burstLength rest + 250⟩] ∧
    run (.resize first :: burst rest ++ [.elapse quiet]) w
      = report (resizeCallback (evaluationWorld w (lastWidth first rest)
          (w.now + burstLength rest) (w.nextTimerId + rest.length) quiet)) ∧
    (run (.resize first :: burst rest ++ [.elapse quiet]) w).evaluations
      = w.evaluations ++ [⟨w.nextTimerId + rest.length, w.now + burstLength rest + 250⟩] ∧
    (run (.resize first :: burst rest ++ [.elapse quiet]) w).timers = [] := by
  have h1 : run (.resize first :: burst rest) w
      = pendingWorld w (lastWidth first rest) (w.now + burstLength rest)
          (w.nextTimerId + rest.length) := by
    rw [run_cons, step_resize_idle w first hb ht, run_burst_pending rest w _ _ _ hb hg]
  have h2 : run (.resize first :: burst rest ++ [.elapse quiet]) w
      = report (resizeCallback (evaluationWorld w (lastWidth first rest)
          (w.now + burstLength rest) (w.nextTimerId + rest.length) quiet)) := by
    rw [show (Event.resize first :: burst rest ++ [Event.elapse quiet])
        = (Event.resize first :: burst rest) ++ [Event.elapse quiet] from rfl,
      run_append, h1, run_cons, step_elapse_quiet _ _ _ _ _ hq]
    rfl
  refine ⟨?_, ?_, h2, ?_, ?_⟩
  · rw [h1]; rfl
  · rw [h1]; rfl
  · rw [h2, (report_resizeCallback_evaluations _).1]; rfl
  · rw [h2, (report_resizeCallback_evaluations _).2]; rfl

/-- C6, on the open sidebar of `demoHost`: three resize events 100 ms and
249 ms apart, ending at width 1200, then 250 ms of quiet. -/
theorem resize_debounce_witness :
    (run (.resize 600 :: burst [(100, 900), (249, 1200)] ++ [.elapse 250])
        openWorld).evaluations = [⟨3, 599⟩] ∧
    isOpen (run (.resize 600 :: burst [(100, 900), (249, 1200)] ++ [.elapse 250])
        openWorld) = false :=
  ⟨(resize_debounce openWorld 600 [(100, 900), (249, 1200)] 250
      (by unfold ResizeBound; decide) (by decide) (by decide) (by decide)).2.2.2.1,
   by decide⟩

end Sidebar
